import Mathlib

/-!
# LiveTranslate — verified model of the backend relay, auth and finalize logic

A shallow embedding of the server code of the LiveTranslate repository:
the WebSocket transcription relay (`registerRoutes`), the login endpoint,
the session-finalization endpoint, and the client-side confidence-opacity
helper.  Pure functions are translated directly; the event-driven relay
becomes an explicit step function on a per-connection state, producing a
list of I/O effects; external calls (JSON parsing, JWT verification,
bcrypt comparison, the LeMUR translation call) are abstracted as function
parameters of an environment record.
-/

/-! ## JavaScript truthiness helpers

The server relies on JS `||` defaults and truthiness checks: the empty
string and the number 0 are falsy, `undefined`/`null` are falsy. -/

/-- JS truthiness of an optional string: `undefined` and `""` are falsy. -/
def jsTruthyS (o : Option String) : Bool :=
  match o with
  | none => false
  | some s => s ≠ ""

/-- JS `a || d` for strings: falsy (`undefined` or `""`) falls back to `d`. -/
def jsOrStr (o : Option String) (d : String) : String :=
  match o with
  | none => d
  | some s => if s = "" then d else s

/-- JS `a || b` where both sides are optional strings (the result may still
be `undefined`, e.g. `u.originalText || u.text` with both absent). -/
def jsOrOpt (a b : Option String) : Option String :=
  if jsTruthyS a then a else b

/-- JS `a || d` for numbers modelled as rationals: `0` is falsy. -/
def jsOrQ (o : Option ℚ) (d : ℚ) : ℚ :=
  match o with
  | none => d
  | some q => if q = 0 then d else q

/-- JS `a || d` for integer-valued numbers (timestamps, durations): `0` is falsy. -/
def jsOrI (o : Option Int) (d : Int) : Int :=
  match o with
  | none => d
  | some v => if v = 0 then d else v

/-! ## Base64 encoding (model of `Buffer.toString("base64")`)

The relay re-encodes each binary audio frame as base64 before wrapping it
in the `audio_data` JSON message sent upstream.  We model the byte buffer
as a list of naturals `< 256` and implement standard base64. -/

/-- The standard base64 alphabet. -/
def b64Alphabet : List Char :=
  ['A','B','C','D','E','F','G','H','I','J','K','L','M','N','O','P',
   'Q','R','S','T','U','V','W','X','Y','Z',
   'a','b','c','d','e','f','g','h','i','j','k','l','m','n','o','p',
   'q','r','s','t','u','v','w','x','y','z',
   '0','1','2','3','4','5','6','7','8','9','+','/']

/-- The base64 digit for a 6-bit value. -/
def b64Char (n : Nat) : Char := b64Alphabet.getD n 'A'

/-- The 6-bit value of a base64 digit. -/
def b64Val (c : Char) : Nat := b64Alphabet.indexOf c

/-- Standard base64 encoding of a byte sequence, with `=` padding. -/
def base64Encode : List Nat → List Char
  | [] => []
  | [a] => [b64Char (a / 4), b64Char (a % 4 * 16), '=', '=']
  | [a, b] => [b64Char (a / 4), b64Char (a % 4 * 16 + b / 16), b64Char (b % 16 * 4), '=']
  | a :: b :: c :: rest =>
      b64Char (a / 4) :: b64Char (a % 4 * 16 + b / 16) ::
      b64Char (b % 16 * 4 + c / 64) :: b64Char (c % 64) :: base64Encode rest

/-- Base64 decoding (inverse of `base64Encode` on well-formed input). -/
def base64Decode : List Char → Option (List Nat)
  | [] => some []
  | c1 :: c2 :: c3 :: c4 :: rest =>
      if c3 = '=' ∧ c4 = '=' ∧ rest = [] then
        some [b64Val c1 * 4 + b64Val c2 / 16]
      else if c4 = '=' ∧ rest = [] then
        some [b64Val c1 * 4 + b64Val c2 / 16, b64Val c2 % 16 * 16 + b64Val c3 / 4]
      else
        match base64Decode rest with
        | none => none
        | some tail =>
            some ((b64Val c1 * 4 + b64Val c2 / 16) ::
                  (b64Val c2 % 16 * 16 + b64Val c3 / 4) ::
                  (b64Val c3 % 4 * 64 + b64Val c4) :: tail)
  | _ => none

lemma b64Val_b64Char (n : Nat) (h : n < 64) : b64Val (b64Char n) = n := by
  interval_cases n <;> decide

lemma b64Char_ne_eq (n : Nat) (h : n < 64) : b64Char n ≠ '=' := by
  interval_cases n <;> decide

/-- Round trip: decoding an encoded byte list recovers the bytes exactly. -/
theorem base64_roundtrip : ∀ (l : List Nat), (∀ b ∈ l, b < 256) →
    base64Decode (base64Encode l) = some l := by
  intro l
  induction l using base64Encode.induct with
  | case1 => intro _; rfl
  | case2 a =>
      intro h
      have ha : a < 256 := h a (by simp)
      have h1 : a / 4 < 64 := by omega
      have h2 : a % 4 * 16 < 64 := by omega
      simp only [base64Encode, base64Decode]
      rw [b64Val_b64Char _ h1, b64Val_b64Char _ h2]
      have : a / 4 * 4 + a % 4 * 16 / 16 = a := by omega
      rw [this]
      simp
  | case3 a b =>
      intro h
      have ha : a < 256 := h a (by simp)
      have hb : b < 256 := h b (by simp)
      have h1 : a / 4 < 64 := by omega
      have h2 : a % 4 * 16 + b / 16 < 64 := by omega
      have h3 : b % 16 * 4 < 64 := by omega
      have hne3 : b64Char (b % 16 * 4) ≠ '=' := b64Char_ne_eq _ h3
      simp only [base64Encode, base64Decode]
      rw [if_neg (by simp [hne3]), if_pos (by simp)]
      rw [b64Val_b64Char _ h1, b64Val_b64Char _ h2, b64Val_b64Char _ h3]
      have e1 : a / 4 * 4 + (a % 4 * 16 + b / 16) / 16 = a := by omega
      have e2 : (a % 4 * 16 + b / 16) % 16 * 16 + b % 16 * 4 / 4 = b := by omega
      rw [e1, e2]
  | case4 a b c rest ih =>
      intro h
      have ha : a < 256 := h a (by simp)
      have hb : b < 256 := h b (by simp)
      have hc : c < 256 := h c (by simp)
      have hrest : ∀ x ∈ rest, x < 256 := by
        intro x hx; exact h x (by simp [hx])
      have h1 : a / 4 < 64 := by omega
      have h2 : a % 4 * 16 + b / 16 < 64 := by omega
      have h3 : b % 16 * 4 + c / 64 < 64 := by omega
      have h4 : c % 64 < 64 := by omega
      have hne4 : b64Char (c % 64) ≠ '=' := b64Char_ne_eq _ h4
      simp only [base64Encode, base64Decode]
      rw [if_neg (by simp [hne4]), if_neg (by simp [hne4])]
      rw [ih hrest]
      rw [b64Val_b64Char _ h1, b64Val_b64Char _ h2, b64Val_b64Char _ h3,
        b64Val_b64Char _ h4]
      have e1 : a / 4 * 4 + (a % 4 * 16 + b / 16) / 16 = a := by omega
      have e2 : (a % 4 * 16 + b / 16) % 16 * 16 + (b % 16 * 4 + c / 64) / 4 = b := by omega
      have e3 : (b % 16 * 4 + c / 64) % 4 * 64 + c % 64 = c := by omega
      rw [e1, e2, e3]

/-! ## The transcription relay (WebSocket handler in `registerRoutes`)

One relay instance per client connection.  The per-connection mutable
variables of the handler closure (`assemblyWs`, `sessionConfig`,
`isAuthenticated`, `assemblyApiKey`) become a state record; each socket
event is processed by a step function that returns the new state together
with the list of I/O effects the handler performs (messages sent to the
client, messages sent upstream, socket opens and closes). -/

/-- Parsed client control message (the JSON shapes the handler inspects
via `message.type`).  `other` covers any JSON object with an unrecognized
or absent `type`, which every branch of the handler ignores. -/
inductive ControlMsg
  | auth (token : String)
  | start (sessionId : Option Int) (sourceLanguage targetLanguage : Option String)
      (userId : Option String)
  | stop
  | other
deriving DecidableEq, Repr

/-- Parsed AssemblyAI result message (fields the handler reads). -/
structure AAIResult where
  message_type : String
  text : Option String
  confidence : Option ℚ
  audio_start : Option Int
  audio_end : Option Int
deriving DecidableEq, Repr

/-- The session configuration captured on `start` (fields copied verbatim
from the start message, with `|| "es"` and `|| "en"` language defaults). -/
structure SessionConfig where
  sessionId : Option Int
  sourceLanguage : String
  targetLanguage : String
  userId : Option String
deriving DecidableEq, Repr

/-- Lifecycle of the provider-facing socket (`assemblyWs`):
`none` — never created; `connecting` — created, `open` event not yet fired;
`opened` — readyState OPEN; `closed` — closed. -/
inductive UpstreamSock
  | none
  | connecting
  | opened
  | closed
deriving DecidableEq, Repr

/-- Per-connection relay state. -/
structure RelayState where
  isAuthenticated : Bool
  sessionConfig : Option SessionConfig
  assemblyApiKey : Option String
  upstream : UpstreamSock
  clientOpen : Bool
deriving DecidableEq, Repr

/-- Initial state of a fresh connection. -/
def initRelay : RelayState :=
  { isAuthenticated := false, sessionConfig := none, assemblyApiKey := none,
    upstream := UpstreamSock.none, clientOpen := true }

/-- Messages the relay sends to the client (`clientWs.send(JSON.stringify ...)`). -/
inductive ClientOut
  | error (message : String)
  | authSuccess
  | ready
  | stopped
  | translation (speaker : String) (originalText translatedText : String)
      (confidence : ℚ) (startTime endTime : Int)
deriving DecidableEq, Repr

/-- Messages the relay sends to the provider (`assemblyWs.send`). -/
inductive UpOut
  | audio (audioData : String)
  | terminate
deriving DecidableEq, Repr

/-- I/O effects performed by one handler invocation, in program order. -/
inductive Effect
  | sendClient (m : ClientOut)
  | sendUpstream (m : UpOut)
  | openUpstream
  | closeUpstream
  | closeClient
deriving DecidableEq, Repr

/-- A frame delivered on the client socket. -/
inductive Frame
  | text (s : String)
  | binary (bytes : List Nat)
deriving DecidableEq, Repr

/-- Socket events delivered to the relay's handlers. -/
inductive Event
  | clientData (f : Frame)
  | clientClose
  | clientError
  | upstreamOpen
  | upstreamMsg (raw : String)
  | upstreamError
  | upstreamClose
deriving DecidableEq, Repr

/-- The relay's environment: external calls abstracted as functions.
`verify` models `jwt.verify` against the server secret (`verifyToken`),
`apiKey` models `process.env.ASSEMBLYAI_API_KEY || null`, the `parse`
functions model `JSON.parse` of the respective payloads (`none` = throw),
and `translate` models `translateWithLemur text src tgt`. -/
structure Env where
  verify : String → Option String
  apiKey : Option String
  parseS : String → Option ControlMsg
  parseB : List Nat → Option ControlMsg
  parseUp : String → Option AAIResult
  translate : String → String → String → String

/-- Handler for a parsed control message (the `message.type` dispatch). -/
def handleControl (env : Env) (s : RelayState) (m : ControlMsg) :
    RelayState × List Effect :=
  match m with
  | ControlMsg.auth token =>
      match env.verify token with
      | none =>
          ({ s with clientOpen := false },
           [Effect.sendClient (ClientOut.error "Authentication failed"),
            Effect.closeClient])
      | some _ =>
          ({ s with isAuthenticated := true },
           [Effect.sendClient ClientOut.authSuccess])
  | ControlMsg.start sessionId sourceLanguage targetLanguage userId =>
      if s.isAuthenticated = false then
        (s, [Effect.sendClient (ClientOut.error "Not authenticated")])
      else
        let cfg : SessionConfig :=
          { sessionId := sessionId,
            sourceLanguage := jsOrStr sourceLanguage "es",
            targetLanguage := jsOrStr targetLanguage "en",
            userId := userId }
        let s1 := { s with sessionConfig := some cfg, assemblyApiKey := env.apiKey }
        match env.apiKey with
        | none =>
            (s1, [Effect.sendClient (ClientOut.error "AssemblyAI API key not configured")])
        | some _ =>
            ({ s1 with upstream := UpstreamSock.connecting }, [Effect.openUpstream])
  | ControlMsg.stop =>
      if s.upstream = UpstreamSock.opened then
        ({ s with upstream := UpstreamSock.closed },
         [Effect.sendUpstream UpOut.terminate, Effect.closeUpstream,
          Effect.sendClient ClientOut.stopped])
      else
        (s, [Effect.sendClient ClientOut.stopped])
  | ControlMsg.other => (s, [])

/-- The translated text the result handler computes: the LeMUR call when a
session config with distinct languages and an API key are present,
otherwise the original text unchanged. -/
def relayTranslation (env : Env) (s : RelayState) (t : String) : String :=
  match s.sessionConfig, s.assemblyApiKey with
  | some cfg, some _ =>
      if cfg.sourceLanguage ≠ cfg.targetLanguage then
        env.translate t cfg.sourceLanguage cfg.targetLanguage
      else t
  | _, _ => t

/-- Handler for a parsed AssemblyAI result message (the `assemblyWs`
`message` listener):  only `FinalTranscript` with truthy `text` produces
an output; the text is translated when a session config with distinct
languages and an API key are present, trimmed, and sent as a `translation`
message with `|| 0` timing defaults and a `|| 0.9` confidence default. -/
def handleUpstreamResult (env : Env) (s : RelayState) (r : AAIResult) :
    List Effect :=
  if r.message_type = "FinalTranscript" ∧ jsTruthyS r.text = true then
    let t := r.text.getD ""
    [Effect.sendClient (ClientOut.translation "A" t (relayTranslation env s t).trim
        (jsOrQ r.confidence (9 / 10))
        (jsOrI r.audio_start 0) (jsOrI r.audio_end 0))]
  else []

/-- One step of the relay: processes a socket event, returning the new
state and the effects performed, in program order.  A `JSON.parse` throw
(`parse… = none`) is caught by the surrounding `try`/`catch`, which only
logs: no effect, no state change. -/
def step (env : Env) (s : RelayState) (e : Event) : RelayState × List Effect :=
  match e with
  | Event.clientData (Frame.text str) =>
      match env.parseS str with
      | none => (s, [])
      | some m => handleControl env s m
  | Event.clientData (Frame.binary bs) =>
      if bs.head? = some 123 then
        match env.parseB bs with
        | none => (s, [])
        | some m => handleControl env s m
      else
        if s.upstream = UpstreamSock.opened then
          (s, [Effect.sendUpstream (UpOut.audio (String.mk (base64Encode bs)))])
        else (s, [])
  | Event.clientClose =>
      if s.upstream = UpstreamSock.opened then
        ({ s with clientOpen := false, upstream := UpstreamSock.closed },
         [Effect.sendUpstream UpOut.terminate, Effect.closeUpstream])
      else ({ s with clientOpen := false }, [])
  | Event.clientError => (s, [])
  | Event.upstreamOpen =>
      ({ s with upstream := UpstreamSock.opened },
       [Effect.sendClient ClientOut.ready])
  | Event.upstreamMsg raw =>
      match env.parseUp raw with
      | none => (s, [])
      | some r => (s, handleUpstreamResult env s r)
  | Event.upstreamError =>
      (s, [Effect.sendClient (ClientOut.error "Transcription service error")])
  | Event.upstreamClose =>
      ({ s with upstream := UpstreamSock.closed }, [])

/-- Run the relay over a list of events, collecting all effects. -/
def run (env : Env) (s : RelayState) : List Event → RelayState × List Effect
  | [] => (s, [])
  | e :: rest =>
      let p := step env s e
      let q := run env p.1 rest
      (q.1, p.2 ++ q.2)

/-- Whether an event is a successfully authenticating `auth` message:
a client frame that parses to `auth` with a token `verify` accepts. -/
def successfulAuth (env : Env) (e : Event) : Bool :=
  match e with
  | Event.clientData (Frame.text str) =>
      match env.parseS str with
      | some (ControlMsg.auth t) => (env.verify t).isSome
      | _ => false
  | Event.clientData (Frame.binary bs) =>
      if bs.head? = some 123 then
        match env.parseB bs with
        | some (ControlMsg.auth t) => (env.verify t).isSome
        | _ => false
      else false
  | _ => false

/-- Number of `translation` messages among a list of effects. -/
def countTranslations (effs : List Effect) : Nat :=
  effs.countP (fun e =>
    match e with
    | Effect.sendClient (ClientOut.translation _ _ _ _ _ _) => true
    | _ => false)

/-- Whether a list of effects contains an upstream audio send. -/
def hasUpstreamAudio (effs : List Effect) : Bool :=
  effs.any (fun e =>
    match e with
    | Effect.sendUpstream (UpOut.audio _) => true
    | _ => false)

/-! ## Session finalization (`POST /api/sessions/:id/finalize`)

The endpoint looks up the session, checks ownership, inserts the submitted
utterances (with JS `||` defaults applied per field), recomputes the
aggregate metrics and updates the session row.  We model the two Drizzle
tables touched (`transcription_sessions`, `utterances`) as lists. -/

/-- A stored session row (the columns the endpoint touches). -/
structure Session where
  id : Int
  userId : String
  sourceLanguage : String
  targetLanguage : String
  duration : Int
  speakerCount : Int
  avgConfidence : Option ℚ
  totalWordCount : Int
deriving DecidableEq, Repr

/-- A stored utterance row (the columns `finalize` inserts). -/
structure StoredUtterance where
  sessionId : Int
  speakerLabel : String
  originalText : Option String
  translatedText : Option String
  confidence : ℚ
  startTime : Int
  endTime : Int
deriving DecidableEq, Repr

/-- An utterance as submitted in the finalize request body (every field may
be absent, `undefined` in JS). -/
structure SubmittedUtt where
  speaker : Option String
  originalText : Option String
  translatedText : Option String
  text : Option String
  confidence : Option ℚ
  startTime : Option Int
  endTime : Option Int
deriving DecidableEq, Repr

/-- The `utteranceData` mapping of the finalize handler: field-by-field JS
`||` defaults, with index-based 5-second default timings. -/
def mkUtteranceData (sessionId : Int) (us : List SubmittedUtt) :
    List StoredUtterance :=
  us.enum.map (fun p =>
    { sessionId := sessionId,
      speakerLabel := jsOrStr p.2.speaker "A",
      originalText := jsOrOpt p.2.originalText p.2.text,
      translatedText := jsOrOpt p.2.translatedText p.2.text,
      confidence := jsOrQ p.2.confidence (9 / 10),
      startTime := jsOrI p.2.startTime (p.1 * 5000),
      endTime := jsOrI p.2.endTime ((p.1 + 1) * 5000) })

/-- The aggregate confidence the handler computes: the mean of the
per-utterance confidences after the `u.confidence || 0.9` default, or 0.9
when no utterances were submitted. -/
def finalizeAvgConfidence (us : Option (List SubmittedUtt)) : ℚ :=
  match us with
  | some l =>
      if l.length > 0 then
        (l.map (fun u => jsOrQ u.confidence (9 / 10))).sum / l.length
      else (9 : ℚ) / 10
  | none => (9 : ℚ) / 10

/-- The speaker count the handler computes: `new Set(map(u => u.speaker)).size`
(note `undefined` counts as an element), or 1 when `utterances` is absent. -/
def finalizeSpeakerCount (us : Option (List SubmittedUtt)) : Int :=
  match us with
  | some l => ((l.map (fun u => u.speaker)).dedup).length
  | none => 1

/-- The total word count the handler computes:
`(u.translatedText || u.text || "").split(" ").length` summed. -/
def finalizeTotalWordCount (us : Option (List SubmittedUtt)) : Int :=
  match us with
  | some l =>
      (l.map (fun u =>
        (((jsOrOpt u.translatedText u.text).getD "").splitOn " ").length)).sum
  | none => 0

/-- The two tables the endpoint touches. -/
structure Store where
  sessions : List Session
  utterances : List StoredUtterance
deriving DecidableEq, Repr

/-- `storage.getSessionById`: first row with the given id. -/
def findSession (l : List Session) (id : Int) : Option Session :=
  l.find? (fun s => s.id = id)

/-- `storage.updateSession id {duration, speakerCount, avgConfidence,
totalWordCount}`: sets those four columns on every row with the given id. -/
def updateSessionRow (id : Int) (duration : Int) (speakerCount : Int)
    (avgConfidence : ℚ) (totalWordCount : Int) (l : List Session) : List Session :=
  l.map (fun s =>
    if s.id = id then
      { s with
          duration := duration
          speakerCount := speakerCount
          avgConfidence := some avgConfidence
          totalWordCount := totalWordCount }
    else s)

/-- Response of the finalize endpoint. -/
inductive FinalizeResp
  | notFound
  | success (sessionId : Int)
deriving DecidableEq, Repr

/-- The finalize endpoint (`POST /api/sessions/:id/finalize`), for an
authenticated request by `userId`. -/
def finalize (st : Store) (userId : String) (sessionId : Int)
    (duration : Option Int) (utts : Option (List SubmittedUtt)) :
    Store × FinalizeResp :=
  match findSession st.sessions sessionId with
  | none => (st, FinalizeResp.notFound)
  | some sess =>
      if sess.userId ≠ userId then (st, FinalizeResp.notFound)
      else
        let inserted :=
          match utts with
          | some l => if l.length > 0 then mkUtteranceData sessionId l else []
          | none => []
        let st' : Store :=
          { sessions := updateSessionRow sessionId (jsOrI duration 0)
              (finalizeSpeakerCount utts) (finalizeAvgConfidence utts)
              (finalizeTotalWordCount utts) st.sessions,
            utterances := st.utterances ++ inserted }
        (st', FinalizeResp.success sessionId)

/-! ## Login endpoint (`POST /api/auth/login`)

`bcrypt.compare` is abstracted as a function parameter `checkPw`. -/

/-- A user row. -/
structure UserRec where
  id : String
  email : String
  password : String
  name : String
deriving DecidableEq, Repr

/-- An HTTP response of the login endpoint: an error with status code and
message, or success carrying the authenticated user's id (the handler also
issues a JWT and echoes the user fields, derived from that id). -/
inductive LoginResp
  | err (status : Nat) (message : String)
  | ok (userId : String)
deriving DecidableEq, Repr

/-- `storage.getUserByEmail`: first row with the given email. -/
def findUserByEmail (l : List UserRec) (email : String) : Option UserRec :=
  l.find? (fun u => u.email = email)

/-- The login endpoint: missing/empty fields give 400; an unknown email or
a failed password comparison both give 401 "Invalid email or password". -/
def login (store : List UserRec) (checkPw : String → String → Bool)
    (email password : Option String) : LoginResp :=
  if jsTruthyS email = false ∨ jsTruthyS password = false then
    LoginResp.err 400 "Email and password are required"
  else
    match findUserByEmail store (email.getD "") with
    | none => LoginResp.err 401 "Invalid email or password"
    | some u =>
        if checkPw (password.getD "") u.password then LoginResp.ok u.id
        else LoginResp.err 401 "Invalid email or password"

/-! ## Confidence-to-opacity display helper (`getConfidenceOpacity`)

Identical function in `RecordScreen.tsx` and `SessionDetailScreen.tsx`;
the argument is optional and the `!confidence` check treats both absence
and the value 0 as falsy. -/

/-- `getConfidenceOpacity(confidence?: number): number`. -/
def getConfidenceOpacity (confidence : Option ℚ) : ℚ :=
  match confidence with
  | none => 1
  | some c =>
      if c = 0 then 1
      else if c ≥ 9 / 10 then 1
      else if c ≥ 7 / 10 then 8 / 10
      else 1 / 2

/-! ## Derived observations on effect lists -/

/-- Number of `openUpstream` effects in a list. -/
def countOpenUpstream (effs : List Effect) : Nat :=
  effs.countP (fun e =>
    match e with
    | Effect.openUpstream => true
    | _ => false)

/-- Whether a list of effects contains `closeClient`. -/
def hasCloseClient (effs : List Effect) : Bool :=
  effs.any (fun e =>
    match e with
    | Effect.closeClient => true
    | _ => false)

/-- Whether a list of effects contains `closeUpstream`. -/
def hasCloseUpstream (effs : List Effect) : Bool :=
  effs.any (fun e =>
    match e with
    | Effect.closeUpstream => true
    | _ => false)

/-- The control message carried by a client frame, if the frame is routed
to the control path: text frames are always parsed; binary frames only
when their first byte is 123 (ASCII `{`). -/
def frameControl (env : Env) (f : Frame) : Option ControlMsg :=
  match f with
  | Frame.text s => env.parseS s
  | Frame.binary bs => if bs.head? = some 123 then env.parseB bs else none

/-! ## Concrete sample environment and states (for witnesses) -/

/-- A concrete environment: one valid token, an API key, a fixed JSON
parse table and an identity-like translation. -/
def sampleEnv : Env where
  verify := fun t => if t = "good-token" then some "user1" else none
  apiKey := some "aai-key"
  parseS := fun str =>
    if str = "AUTH" then some (ControlMsg.auth "good-token")
    else if str = "BADAUTH" then some (ControlMsg.auth "bad-token")
    else if str = "START" then
      some (ControlMsg.start (some 1) (some "es") (some "en") (some "user1"))
    else if str = "STOP" then some ControlMsg.stop
    else none
  parseB := fun bs =>
    if bs = [123, 34, 116, 121, 112, 101, 34, 58, 34, 115, 116, 111, 112, 34, 125]
    then some ControlMsg.stop else none
  parseUp := fun raw =>
    if raw = "FINAL_EMPTY" then
      some { message_type := "FinalTranscript", text := some "", confidence := none,
             audio_start := none, audio_end := none }
    else if raw = "FINAL_OK" then
      some { message_type := "FinalTranscript", text := some "hola",
             confidence := some (19 / 20), audio_start := some 100,
             audio_end := some 900 }
    else if raw = "FINAL_NOTIME" then
      some { message_type := "FinalTranscript", text := some "hola",
             confidence := none, audio_start := none, audio_end := none }
    else none
  translate := fun t _ _ => t

/-- The relay state after a successful auth, a start, and the upstream
`open` event: authenticated and streaming. -/
def sampleOpenState : RelayState :=
  (run sampleEnv initRelay
    [Event.clientData (Frame.text "AUTH"),
     Event.clientData (Frame.text "START"),
     Event.upstreamOpen]).1

lemma sampleOpenState_upstream : sampleOpenState.upstream = UpstreamSock.opened := by
  rfl

/-! ## Helper lemmas about the relay step function -/

lemma handleControl_no_audio (env : Env) (s : RelayState) (m : ControlMsg) :
    hasUpstreamAudio (handleControl env s m).2 = false := by
  cases m with
  | auth token =>
      cases h : env.verify token <;> simp [handleControl, h, hasUpstreamAudio]
  | start sid sl tl uid =>
      cases hA : s.isAuthenticated <;> cases hK : env.apiKey <;>
        simp [handleControl, hA, hK, hasUpstreamAudio]
  | stop =>
      by_cases h : s.upstream = UpstreamSock.opened <;>
        simp [handleControl, h, hasUpstreamAudio]
  | other => simp [handleControl, hasUpstreamAudio]

lemma step_clientData_control (env : Env) (s : RelayState) (f : Frame)
    (m : ControlMsg) (h : frameControl env f = some m) :
    step env s (Event.clientData f) = handleControl env s m := by
  cases f with
  | text str =>
      simp only [frameControl] at h
      simp [step, h]
  | binary bs =>
      simp only [frameControl] at h
      by_cases hb : bs.head? = some 123
      · rw [if_pos hb] at h
        simp [step, hb, h]
      · rw [if_neg hb] at h
        exact absurd h (by simp)

lemma step_preserves_unauth (env : Env) (s : RelayState) (e : Event)
    (hna : successfulAuth env e = false) :
    (step env s e).1.isAuthenticated = s.isAuthenticated := by
  cases e with
  | clientData f =>
      cases f with
      | text str =>
          simp only [successfulAuth] at hna
          cases hp : env.parseS str with
          | none => simp [step, hp]
          | some m =>
              rw [hp] at hna
              cases m with
              | auth t =>
                  simp only at hna
                  cases hv : env.verify t with
                  | none => simp [step, hp, handleControl, hv]
                  | some uid => rw [hv] at hna; simp at hna
              | start sid sl tl uid =>
                  cases hA : s.isAuthenticated <;> cases hK : env.apiKey <;>
                    simp [step, hp, handleControl, hA, hK]
              | stop =>
                  by_cases h : s.upstream = UpstreamSock.opened <;>
                    simp [step, hp, handleControl, h]
              | other => simp [step, hp, handleControl]
      | binary bs =>
          simp only [successfulAuth] at hna
          by_cases hb : bs.head? = some 123
          · rw [if_pos hb] at hna
            cases hp : env.parseB bs with
            | none => simp [step, hb, hp]
            | some m =>
                rw [hp] at hna
                cases m with
                | auth t =>
                    simp only at hna
                    cases hv : env.verify t with
                    | none => simp [step, hb, hp, handleControl, hv]
                    | some uid => rw [hv] at hna; simp at hna
                | start sid sl tl uid =>
                    cases hA : s.isAuthenticated <;> cases hK : env.apiKey <;>
                      simp [step, hb, hp, handleControl, hA, hK]
                | stop =>
                    by_cases h : s.upstream = UpstreamSock.opened <;>
                      simp [step, hb, hp, handleControl, h]
                | other => simp [step, hb, hp, handleControl]
          · by_cases ho : s.upstream = UpstreamSock.opened <;>
              simp [step, hb, ho]
  | clientClose =>
      by_cases h : s.upstream = UpstreamSock.opened <;> simp [step, h]
  | clientError => simp [step]
  | upstreamOpen => simp [step]
  | upstreamMsg raw =>
      cases hp : env.parseUp raw <;> simp [step, hp]
  | upstreamError => simp [step]
  | upstreamClose => simp [step]

lemma step_no_open_of_unauth (env : Env) (s : RelayState) (e : Event)
    (hA : s.isAuthenticated = false) :
    countOpenUpstream (step env s e).2 = 0 := by
  cases e with
  | clientData f =>
      cases f with
      | text str =>
          cases hp : env.parseS str with
          | none => simp [step, hp, countOpenUpstream]
          | some m =>
              cases m with
              | auth t =>
                  cases hv : env.verify t <;>
                    simp [step, hp, handleControl, hv, countOpenUpstream]
              | start sid sl tl uid =>
                  simp [step, hp, handleControl, hA, countOpenUpstream]
              | stop =>
                  by_cases h : s.upstream = UpstreamSock.opened <;>
                    simp [step, hp, handleControl, h, countOpenUpstream]
              | other => simp [step, hp, handleControl, countOpenUpstream]
      | binary bs =>
          by_cases hb : bs.head? = some 123
          · cases hp : env.parseB bs with
            | none => simp [step, hb, hp, countOpenUpstream]
            | some m =>
                cases m with
                | auth t =>
                    cases hv : env.verify t <;>
                      simp [step, hb, hp, handleControl, hv, countOpenUpstream]
                | start sid sl tl uid =>
                    simp [step, hb, hp, handleControl, hA, countOpenUpstream]
                | stop =>
                    by_cases h : s.upstream = UpstreamSock.opened <;>
                      simp [step, hb, hp, handleControl, h, countOpenUpstream]
                | other => simp [step, hb, hp, handleControl, countOpenUpstream]
          · by_cases ho : s.upstream = UpstreamSock.opened <;>
              simp [step, hb, ho, countOpenUpstream]
  | clientClose =>
      by_cases h : s.upstream = UpstreamSock.opened <;>
        simp [step, h, countOpenUpstream]
  | clientError => simp [step, countOpenUpstream]
  | upstreamOpen => simp [step, countOpenUpstream]
  | upstreamMsg raw =>
      cases hp : env.parseUp raw with
      | none => simp [step, hp, countOpenUpstream]
      | some r =>
          simp only [step, hp]
          unfold handleUpstreamResult
          by_cases h : r.message_type = "FinalTranscript" ∧ jsTruthyS r.text = true <;>
            simp [h, countOpenUpstream]
  | upstreamError => simp [step, countOpenUpstream]
  | upstreamClose => simp [step, countOpenUpstream]

lemma run_unauth_invariant (env : Env) :
    ∀ (events : List Event) (s : RelayState),
      (∀ e ∈ events, successfulAuth env e = false) →
      (run env s events).1.isAuthenticated = s.isAuthenticated
  | [], s, _ => rfl
  | e :: rest, s, h => by
      have h1 : successfulAuth env e = false := h e (by simp)
      have h2 : ∀ e' ∈ rest, successfulAuth env e' = false := by
        intro e' he'; exact h e' (by simp [he'])
      simp only [run]
      rw [run_unauth_invariant env rest (step env s e).1 h2]
      exact step_preserves_unauth env s e h1

lemma run_no_open_of_unauth (env : Env) :
    ∀ (events : List Event) (s : RelayState),
      (∀ e ∈ events, successfulAuth env e = false) →
      s.isAuthenticated = false →
      countOpenUpstream (run env s events).2 = 0
  | [], s, _, _ => rfl
  | e :: rest, s, h, hA => by
      have h1 : successfulAuth env e = false := h e (by simp)
      have h2 : ∀ e' ∈ rest, successfulAuth env e' = false := by
        intro e' he'; exact h e' (by simp [he'])
      have hA1 : (step env s e).1.isAuthenticated = false := by
        rw [step_preserves_unauth env s e h1]; exact hA
      simp only [run, countOpenUpstream, List.countP_append]
      have := step_no_open_of_unauth env s e hA
      have := run_no_open_of_unauth env rest (step env s e).1 h2 hA1
      simp only [countOpenUpstream] at *
      omega

/-! ## Claim theorems -/

lemma jsOrI_some_zero (v : Int) : jsOrI (some v) 0 = v := by
  unfold jsOrI
  by_cases h : v = 0 <;> simp [h]

/-- C4 (corrected): the actual teardown behavior.  A `stop` command sends a
termination message upstream, closes the upstream socket and replies
`stopped`, but leaves the client socket open; closure of the client socket
tears down the upstream socket; closure of the upstream socket triggers no
teardown of the client socket. -/
theorem c4_stop_and_close_behavior (env : Env) (s : RelayState) (f : String)
    (hstop : env.parseS f = some ControlMsg.stop)
    (hopen : s.upstream = UpstreamSock.opened) :
    step env s (Event.clientData (Frame.text f)) =
      ({ s with upstream := UpstreamSock.closed },
       [Effect.sendUpstream UpOut.terminate, Effect.closeUpstream,
        Effect.sendClient ClientOut.stopped]) ∧
    step env s Event.clientClose =
      ({ s with clientOpen := false, upstream := UpstreamSock.closed },
       [Effect.sendUpstream UpOut.terminate, Effect.closeUpstream]) ∧
    step env s Event.upstreamClose =
      ({ s with upstream := UpstreamSock.closed }, []) := by
  refine ⟨?_, ?_, rfl⟩
  · simp [step, hstop, handleControl, hopen]
  · simp [step, hopen]

/-- C4 counterexample: after a `stop` command processed in the streaming
state, the client socket is still open and no `closeClient` effect was
performed — the claim that `stop` tears down both ends is false. -/
theorem c4_counterexample :
    sampleOpenState.upstream = UpstreamSock.opened ∧
    sampleOpenState.clientOpen = true ∧
    (step sampleEnv sampleOpenState (Event.clientData (Frame.text "STOP"))).1.clientOpen
      = true ∧
    hasCloseClient
      (step sampleEnv sampleOpenState (Event.clientData (Frame.text "STOP"))).2
      = false :=
  ⟨rfl, rfl, rfl, rfl⟩

/-- C4 witness: the amended teardown behavior at the concrete streaming state. -/
theorem c4_witness :
    step sampleEnv sampleOpenState (Event.clientData (Frame.text "STOP")) =
      ({ sampleOpenState with upstream := UpstreamSock.closed },
       [Effect.sendUpstream UpOut.terminate, Effect.closeUpstream,
        Effect.sendClient ClientOut.stopped]) ∧
    step sampleEnv sampleOpenState Event.clientClose =
      ({ sampleOpenState with clientOpen := false, upstream := UpstreamSock.closed },
       [Effect.sendUpstream UpOut.terminate, Effect.closeUpstream]) ∧
    step sampleEnv sampleOpenState Event.upstreamClose =
      ({ sampleOpenState with upstream := UpstreamSock.closed }, []) :=
  c4_stop_and_close_behavior sampleEnv sampleOpenState "STOP" rfl rfl

/-- C5 (confirmed): when the client socket closes while the upstream
provider socket is open, the relay sends the provider the
`terminate_session` message and closes the upstream socket. -/
theorem c5_client_close_closes_upstream (env : Env) (s : RelayState)
    (hopen : s.upstream = UpstreamSock.opened) :
    step env s Event.clientClose =
      ({ s with clientOpen := false, upstream := UpstreamSock.closed },
       [Effect.sendUpstream UpOut.terminate, Effect.closeUpstream]) := by
  simp [step, hopen]

/-- C5 witness: the teardown at the concrete streaming state. -/
theorem c5_witness :
    step sampleEnv sampleOpenState Event.clientClose =
      ({ sampleOpenState with clientOpen := false, upstream := UpstreamSock.closed },
       [Effect.sendUpstream UpOut.terminate, Effect.closeUpstream]) :=
  c5_client_close_closes_upstream sampleEnv sampleOpenState rfl

/-- C7 (corrected): a transport error on the provider socket is reported
to the client as a single `error` message with a human-readable string and
no reconnection is attempted (no `openUpstream` effect), but the relay
does not shut the sockets down itself: the error handler leaves the state
unchanged, and the upstream socket's own close event performs no teardown
of the client socket. -/
theorem c7_upstream_error_single_report (env : Env) (s : RelayState) :
    step env s Event.upstreamError =
      (s, [Effect.sendClient (ClientOut.error "Transcription service error")]) ∧
    countOpenUpstream (step env s Event.upstreamError).2 = 0 ∧
    step env s Event.upstreamClose =
      ({ s with upstream := UpstreamSock.closed }, []) :=
  ⟨rfl, rfl, rfl⟩

/-- C7 counterexample: after a provider-socket error in the streaming
state, the client socket is still open, the relay closed nothing — the
claim that both sockets are shut down is false. -/
theorem c7_counterexample :
    (step sampleEnv sampleOpenState Event.upstreamError).1.clientOpen = true ∧
    (step sampleEnv sampleOpenState Event.upstreamError).1.upstream
      = UpstreamSock.opened ∧
    hasCloseClient (step sampleEnv sampleOpenState Event.upstreamError).2 = false ∧
    hasCloseUpstream (step sampleEnv sampleOpenState Event.upstreamError).2 = false :=
  ⟨rfl, rfl, rfl, rfl⟩

/-- C8 (confirmed): a binary frame whose first byte is 123 (ASCII `{`) is
routed to the control path: it is never forwarded upstream as audio, and
when it fails to parse as JSON the error is caught and the frame dropped
with no effect and no state change (the connection survives). -/
theorem c8_brace_binary_is_control (env : Env) (s : RelayState) (bs : List Nat)
    (hb : bs.head? = some 123) :
    hasUpstreamAudio (step env s (Event.clientData (Frame.binary bs))).2 = false ∧
    (env.parseB bs = none →
      step env s (Event.clientData (Frame.binary bs)) = (s, [])) := by
  constructor
  · cases hp : env.parseB bs with
    | none => simp [step, hb, hp, hasUpstreamAudio]
    | some m =>
        rw [step_clientData_control env s _ m (by simp [frameControl, hb, hp])]
        exact handleControl_no_audio env s m
  · intro hp
    simp [step, hb, hp]

/-- C8 witness: the concrete frame `[123]` (a lone `{`, invalid JSON) in
the streaming state is dropped silently and never forwarded as audio. -/
theorem c8_witness :
    hasUpstreamAudio
      (step sampleEnv sampleOpenState (Event.clientData (Frame.binary [123]))).2
      = false ∧
    step sampleEnv sampleOpenState (Event.clientData (Frame.binary [123]))
      = (sampleOpenState, []) :=
  ⟨(c8_brace_binary_is_control sampleEnv sampleOpenState [123] rfl).1,
   (c8_brace_binary_is_control sampleEnv sampleOpenState [123] rfl).2 rfl⟩

/-- C6 (corrected): every binary frame whose first byte is not 123,
received while the upstream connection is open, is forwarded immediately
as exactly one upstream message carrying the base64 encoding of the frame's
bytes, with no state change (no buffering or batching); the encoding is
lossless — decoding recovers the audio payload exactly. -/
theorem c6_audio_forwarding (env : Env) (s : RelayState) (bs : List Nat)
    (hopen : s.upstream = UpstreamSock.opened)
    (hb : bs.head? ≠ some 123)
    (hbytes : ∀ b ∈ bs, b < 256) :
    step env s (Event.clientData (Frame.binary bs)) =
      (s, [Effect.sendUpstream (UpOut.audio (String.mk (base64Encode bs)))]) ∧
    base64Decode (String.mk (base64Encode bs)).data = some bs := by
  constructor
  · simp [step, hb, hopen]
  · exact base64_roundtrip bs hbytes

/-- C6 counterexample: a binary frame starting with byte 123 received in
the streaming state is not forwarded to the provider at all — the claim
that every binary frame is forwarded while the upstream is open is false. -/
theorem c6_counterexample :
    sampleOpenState.upstream = UpstreamSock.opened ∧
    (step sampleEnv sampleOpenState (Event.clientData (Frame.binary [123, 125]))).2
      = [] ∧
    hasUpstreamAudio
      (step sampleEnv sampleOpenState (Event.clientData (Frame.binary [123, 125]))).2
      = false :=
  ⟨rfl, rfl, rfl⟩

/-- C6 witness: the frame `[1, 2, 3]` in the streaming state is forwarded
as one upstream message carrying its base64 encoding, which decodes back. -/
theorem c6_witness :
    step sampleEnv sampleOpenState (Event.clientData (Frame.binary [1, 2, 3])) =
      (sampleOpenState,
       [Effect.sendUpstream (UpOut.audio (String.mk (base64Encode [1, 2, 3])))]) ∧
    base64Decode (String.mk (base64Encode [1, 2, 3])).data = some [1, 2, 3] :=
  c6_audio_forwarding sampleEnv sampleOpenState [1, 2, 3] rfl (by decide) (by decide)

/-- C2 (confirmed): on a connection whose event history contains no
successfully authenticating `auth` message, no upstream connection is ever
opened, and a `start` command is rejected with an `error` message and
opens nothing. -/
theorem c2_unauthenticated_start_rejected
    (env : Env) (events : List Event) (f : Frame)
    (sid : Option Int) (sl tl uid : Option String)
    (hna : ∀ e ∈ events, successfulAuth env e = false)
    (hf : frameControl env f = some (ControlMsg.start sid sl tl uid)) :
    countOpenUpstream (run env initRelay events).2 = 0 ∧
    (step env (run env initRelay events).1 (Event.clientData f)).2 =
      [Effect.sendClient (ClientOut.error "Not authenticated")] ∧
    countOpenUpstream
      (step env (run env initRelay events).1 (Event.clientData f)).2 = 0 := by
  have hA : (run env initRelay events).1.isAuthenticated = false := by
    rw [run_unauth_invariant env events initRelay hna]; rfl
  refine ⟨run_no_open_of_unauth env events initRelay hna rfl, ?_, ?_⟩
  · rw [step_clientData_control env _ f _ hf]
    simp [handleControl, hA]
  · rw [step_clientData_control env _ f _ hf]
    simp [handleControl, hA, countOpenUpstream]

/-- C2 witness: after one failed auth attempt, a concrete `start` command
is rejected with an error and nothing upstream was ever opened. -/
theorem c2_witness :
    countOpenUpstream
      (run sampleEnv initRelay [Event.clientData (Frame.text "BADAUTH")]).2 = 0 ∧
    (step sampleEnv
      (run sampleEnv initRelay [Event.clientData (Frame.text "BADAUTH")]).1
      (Event.clientData (Frame.text "START"))).2 =
      [Effect.sendClient (ClientOut.error "Not authenticated")] ∧
    countOpenUpstream
      (step sampleEnv
        (run sampleEnv initRelay [Event.clientData (Frame.text "BADAUTH")]).1
        (Event.clientData (Frame.text "START"))).2 = 0 :=
  c2_unauthenticated_start_rejected sampleEnv
    [Event.clientData (Frame.text "BADAUTH")] (Frame.text "START")
    (some 1) (some "es") (some "en") (some "user1") (by decide) rfl

/-- C1 (corrected): for a provider result carrying the `FinalTranscript`
marker: when its `text` is present and non-empty, the relay sends exactly
one `translation` message whose `originalText` is the provider's text,
whose `translatedText` is the trimmed output of the translation step,
whose `confidence` defaults to 0.9 when falsy, and whose
`startTime`/`endTime` are the `|| 0` defaults of `audio_start`/`audio_end`
(carrying the provider's value when present — `jsOrI_some_zero` — and 0
when absent); when its `text` is empty or absent, no message is sent at
all.  The state is unchanged in every case. -/
theorem c1_final_transcript_translation
    (env : Env) (s : RelayState) (raw : String) (r : AAIResult)
    (hp : env.parseUp raw = some r)
    (hm : r.message_type = "FinalTranscript") :
    (∀ t, r.text = some t → t ≠ "" →
      (step env s (Event.upstreamMsg raw)).2 =
        [Effect.sendClient (ClientOut.translation "A" t
          (relayTranslation env s t).trim (jsOrQ r.confidence (9 / 10))
          (jsOrI r.audio_start 0) (jsOrI r.audio_end 0))] ∧
      countTranslations (step env s (Event.upstreamMsg raw)).2 = 1) ∧
    (jsTruthyS r.text = false →
      (step env s (Event.upstreamMsg raw)).2 = []) ∧
    (step env s (Event.upstreamMsg raw)).1 = s := by
  refine ⟨?_, ?_, by simp [step, hp]⟩
  · intro t ht hne
    have htr : jsTruthyS r.text = true := by
      rw [ht]; simp [jsTruthyS, hne]
    have heff : (step env s (Event.upstreamMsg raw)).2 =
        [Effect.sendClient (ClientOut.translation "A" t
          (relayTranslation env s t).trim (jsOrQ r.confidence (9 / 10))
          (jsOrI r.audio_start 0) (jsOrI r.audio_end 0))] := by
      simp only [step, hp]
      unfold handleUpstreamResult
      rw [if_pos ⟨hm, htr⟩, ht]
      rfl
    exact ⟨heff, by rw [heff]; rfl⟩
  · intro hft
    simp only [step, hp]
    unfold handleUpstreamResult
    rw [if_neg]
    intro hcon
    rw [hft] at hcon
    exact absurd hcon.2 (by simp)

/-- C1 counterexample: a `FinalTranscript` result with an empty `text`
produces zero `translation` messages, not exactly one. -/
theorem c1_counterexample :
    sampleEnv.parseUp "FINAL_EMPTY" =
      some { message_type := "FinalTranscript", text := some "",
             confidence := none, audio_start := none, audio_end := none } ∧
    countTranslations
      (step sampleEnv sampleOpenState (Event.upstreamMsg "FINAL_EMPTY")).2 = 0 :=
  ⟨rfl, rfl⟩

/-- C1 witness: the concrete `FinalTranscript` with text `"hola"`,
confidence 0.95 and timings 100–900 produces exactly one translation
message carrying those fields; the same result without timing fields gets
the 0 defaults; the empty-text result produces no message; the state is
unchanged. -/
theorem c1_witness :
    (step sampleEnv sampleOpenState (Event.upstreamMsg "FINAL_OK")).2 =
      [Effect.sendClient (ClientOut.translation "A" "hola"
        (relayTranslation sampleEnv sampleOpenState "hola").trim
        (jsOrQ (some (19 / 20)) (9 / 10))
        (jsOrI (some 100) 0) (jsOrI (some 900) 0))] ∧
    countTranslations
      (step sampleEnv sampleOpenState (Event.upstreamMsg "FINAL_OK")).2 = 1 ∧
    (step sampleEnv sampleOpenState (Event.upstreamMsg "FINAL_NOTIME")).2 =
      [Effect.sendClient (ClientOut.translation "A" "hola"
        (relayTranslation sampleEnv sampleOpenState "hola").trim
        (jsOrQ none (9 / 10)) (jsOrI none 0) (jsOrI none 0))] ∧
    (step sampleEnv sampleOpenState (Event.upstreamMsg "FINAL_EMPTY")).2 = [] ∧
    (step sampleEnv sampleOpenState (Event.upstreamMsg "FINAL_OK")).1
      = sampleOpenState :=
  ⟨((c1_final_transcript_translation sampleEnv sampleOpenState "FINAL_OK"
      { message_type := "FinalTranscript", text := some "hola",
        confidence := some (19 / 20), audio_start := some 100,
        audio_end := some 900 } rfl rfl).1 "hola" rfl (by decide)).1,
   ((c1_final_transcript_translation sampleEnv sampleOpenState "FINAL_OK"
      { message_type := "FinalTranscript", text := some "hola",
        confidence := some (19 / 20), audio_start := some 100,
        audio_end := some 900 } rfl rfl).1 "hola" rfl (by decide)).2,
   ((c1_final_transcript_translation sampleEnv sampleOpenState "FINAL_NOTIME"
      { message_type := "FinalTranscript", text := some "hola",
        confidence := none, audio_start := none,
        audio_end := none } rfl rfl).1 "hola" rfl (by decide)).1,
   (c1_final_transcript_translation sampleEnv sampleOpenState "FINAL_EMPTY"
      { message_type := "FinalTranscript", text := some "",
        confidence := none, audio_start := none,
        audio_end := none } rfl rfl).2.1 rfl,
   (c1_final_transcript_translation sampleEnv sampleOpenState "FINAL_OK"
      { message_type := "FinalTranscript", text := some "hola",
        confidence := some (19 / 20), audio_start := some 100,
        audio_end := some 900 } rfl rfl).2.2⟩

lemma findSession_updateSessionRow (id : Int) (d sc : Int) (ac : ℚ) (tw : Int) :
    ∀ l : List Session,
      findSession (updateSessionRow id d sc ac tw l) id =
        (findSession l id).map (fun s =>
          { s with
              duration := d
              speakerCount := sc
              avgConfidence := some ac
              totalWordCount := tw })
  | [] => rfl
  | s :: rest => by
      simp only [updateSessionRow, List.map_cons, findSession]
      by_cases h : s.id = id
      · rw [if_pos h]
        rw [List.find?_cons_of_pos _ (by simp [h]),
          List.find?_cons_of_pos _ (by simp [h])]
        simp
      · rw [if_neg h]
        rw [List.find?_cons_of_neg _ (by simp [h]),
          List.find?_cons_of_neg _ (by simp [h])]
        exact findSession_updateSessionRow id d sc ac tw rest

/-- C3 (corrected): a finalize request on an owned session with a duration
and a non-empty utterance list appends exactly the submitted utterances —
after the field-wise JS `||` defaulting (`speaker || "A"`,
`confidence || 0.9`, index-based timing defaults) — to the utterance
store, and updates the session's aggregate confidence to the arithmetic
mean of the per-utterance confidences after the same `|| 0.9`
substitution. -/
theorem c3_finalize_persists_with_defaults
    (st : Store) (userId : String) (sid : Int) (dur : Option Int)
    (us : List SubmittedUtt) (sess : Session)
    (hfind : findSession st.sessions sid = some sess)
    (hown : sess.userId = userId) (hne : us ≠ []) :
    (finalize st userId sid dur (some us)).1.utterances
      = st.utterances ++ mkUtteranceData sid us ∧
    findSession (finalize st userId sid dur (some us)).1.sessions sid
      = some { sess with
          duration := jsOrI dur 0
          speakerCount := finalizeSpeakerCount (some us)
          avgConfidence :=
            some ((us.map (fun u => jsOrQ u.confidence (9 / 10))).sum / us.length)
          totalWordCount := finalizeTotalWordCount (some us) } ∧
    (finalize st userId sid dur (some us)).2 = FinalizeResp.success sid := by
  have hlen : us.length > 0 := List.length_pos.mpr hne
  have havg : finalizeAvgConfidence (some us)
      = (us.map (fun u => jsOrQ u.confidence (9 / 10))).sum / us.length := by
    simp [finalizeAvgConfidence, hlen]
  simp only [finalize, hfind]
  rw [if_neg (by simp [hown])]
  refine ⟨by simp [hlen], ?_, rfl⟩
  rw [findSession_updateSessionRow, hfind, havg]
  rfl

/-- The single session row of the C3 counterexample store. -/
def cexSession : Session :=
  { id := 1, userId := "u", sourceLanguage := "es", targetLanguage := "en",
    duration := 0, speakerCount := 1, avgConfidence := none, totalWordCount := 0 }

/-- The C3 counterexample store: one owned session, no utterances yet. -/
def cexStore : Store := { sessions := [cexSession], utterances := [] }

/-- The C3 counterexample submission: a single utterance whose submitted
confidence is exactly 0. -/
def cexSubmitted : SubmittedUtt :=
  { speaker := some "A", originalText := some "hola",
    translatedText := some "hello", text := some "hola",
    confidence := some 0, startTime := some 10, endTime := some 20 }

/-- C3 counterexample: finalizing with a single utterance of confidence 0
stores aggregate confidence 0.9, not the arithmetic mean 0 of the
submitted confidences (and persists the utterance with confidence 0.9). -/
theorem c3_counterexample :
    ((finalize cexStore "u" 1 (some 60) (some [cexSubmitted])).1.sessions.map
      (fun s => s.avgConfidence)) = [some ((9 : ℚ) / 10)] ∧
    ((finalize cexStore "u" 1 (some 60) (some [cexSubmitted])).1.utterances.map
      (fun u => u.confidence)) = [(9 : ℚ) / 10] ∧
    cexSubmitted.confidence = some 0 ∧
    ((9 : ℚ) / 10) ≠ ([(0 : ℚ)].sum / ([cexSubmitted].length : ℚ)) := by
  refine ⟨?_, ?_, rfl, by norm_num⟩
  · norm_num [finalize, findSession, cexStore, cexSession, cexSubmitted,
      updateSessionRow, finalizeAvgConfidence, finalizeSpeakerCount,
      finalizeTotalWordCount, mkUtteranceData, jsOrQ, jsOrI, jsOrStr, jsOrOpt,
      jsTruthyS, List.find?]
  · norm_num [finalize, findSession, cexStore, cexSession, cexSubmitted,
      updateSessionRow, finalizeAvgConfidence, finalizeSpeakerCount,
      finalizeTotalWordCount, mkUtteranceData, jsOrQ, jsOrI, jsOrStr, jsOrOpt,
      jsTruthyS, List.find?]

/-- C3 witness: finalizing the concrete owned session with one utterance
of confidence 0.8 persists it and stores aggregate confidence 0.8. -/
theorem c3_witness :
    (finalize cexStore "u" 1 (some 60)
        (some [{ cexSubmitted with confidence := some (4 / 5) }])).1.utterances
      = cexStore.utterances ++
        mkUtteranceData 1 [{ cexSubmitted with confidence := some (4 / 5) }] ∧
    findSession
      (finalize cexStore "u" 1 (some 60)
        (some [{ cexSubmitted with confidence := some (4 / 5) }])).1.sessions 1
      = some { cexSession with
          duration := jsOrI (some 60) 0
          speakerCount :=
            finalizeSpeakerCount
              (some [{ cexSubmitted with confidence := some (4 / 5) }])
          avgConfidence :=
            some ((([{ cexSubmitted with confidence := some (4 / 5) }].map
              (fun u => jsOrQ u.confidence (9 / 10))).sum) /
              ([{ cexSubmitted with confidence := some (4 / 5) }].length : ℚ))
          totalWordCount :=
            finalizeTotalWordCount
              (some [{ cexSubmitted with confidence := some (4 / 5) }]) } ∧
    (finalize cexStore "u" 1 (some 60)
        (some [{ cexSubmitted with confidence := some (4 / 5) }])).2
      = FinalizeResp.success 1 :=
  c3_finalize_persists_with_defaults cexStore "u" 1 (some 60)
    [{ cexSubmitted with confidence := some (4 / 5) }] cexSession
    rfl rfl (by decide)

/-- C9 (confirmed): the confidence-to-opacity helper maps `c ≥ 0.9` to 1,
`0.7 ≤ c < 0.9` to 0.8, `0 < c < 0.7` to 0.5, and both a confidence of
exactly 0 and an absent confidence to full opacity 1 (the JS falsy check
does not distinguish zero from absent). -/
theorem c9_confidence_opacity (c : ℚ) :
    (c ≥ 9 / 10 → getConfidenceOpacity (some c) = 1) ∧
    (7 / 10 ≤ c → c < 9 / 10 → getConfidenceOpacity (some c) = 8 / 10) ∧
    (0 < c → c < 7 / 10 → getConfidenceOpacity (some c) = 1 / 2) ∧
    getConfidenceOpacity (some 0) = 1 ∧
    getConfidenceOpacity none = 1 := by
  refine ⟨?_, ?_, ?_, by norm_num [getConfidenceOpacity], rfl⟩
  · intro h
    have h0 : ¬(c = 0) := by intro he; rw [he] at h; norm_num at h
    simp [getConfidenceOpacity, h0, h]
  · intro h7 h9
    have h0 : ¬(c = 0) := by intro he; rw [he] at h7; norm_num at h7
    have hn9 : ¬(c ≥ 9 / 10) := not_le.mpr h9
    simp [getConfidenceOpacity, h0, hn9, h7]
  · intro hpos h7
    have h0 : ¬(c = 0) := by intro he; rw [he] at hpos; norm_num at hpos
    have hn9 : ¬(c ≥ 9 / 10) := by
      intro hge
      have : (7 : ℚ) / 10 < 9 / 10 := by norm_num
      linarith
    have hn7 : ¬(c ≥ 7 / 10) := not_le.mpr h7
    simp [getConfidenceOpacity, h0, hn9, hn7]

/-- C9 witness: the four opacity buckets evaluated concretely. -/
theorem c9_witness :
    getConfidenceOpacity (some (19 / 20)) = 1 ∧
    getConfidenceOpacity (some (4 / 5)) = 8 / 10 ∧
    getConfidenceOpacity (some (1 / 2)) = 1 / 2 ∧
    getConfidenceOpacity (some 0) = 1 ∧
    getConfidenceOpacity none = 1 :=
  ⟨(c9_confidence_opacity (19 / 20)).1 (by norm_num),
   (c9_confidence_opacity (4 / 5)).2.1 (by norm_num) (by norm_num),
   (c9_confidence_opacity (1 / 2)).2.2.1 (by norm_num) (by norm_num),
   (c9_confidence_opacity 0).2.2.2.1,
   (c9_confidence_opacity 0).2.2.2.2⟩

/-- C10 (confirmed): the login endpoint is credential-enumeration-safe:
a request whose email matches no user and a request whose email matches a
user but whose password comparison fails receive the identical response,
status 401 with message "Invalid email or password". -/
theorem c10_login_enumeration_safe
    (store : List UserRec) (checkPw : String → String → Bool)
    (email1 password1 email2 password2 : Option String) (u : UserRec)
    (he1 : jsTruthyS email1 = true) (hp1 : jsTruthyS password1 = true)
    (he2 : jsTruthyS email2 = true) (hp2 : jsTruthyS password2 = true)
    (hmiss : findUserByEmail store (email1.getD "") = none)
    (hfound : findUserByEmail store (email2.getD "") = some u)
    (hbad : checkPw (password2.getD "") u.password = false) :
    login store checkPw email1 password1
      = LoginResp.err 401 "Invalid email or password" ∧
    login store checkPw email2 password2
      = LoginResp.err 401 "Invalid email or password" ∧
    login store checkPw email1 password1
      = login store checkPw email2 password2 := by
  have l1 : login store checkPw email1 password1
      = LoginResp.err 401 "Invalid email or password" := by
    unfold login
    rw [if_neg (by simp [he1, hp1]), hmiss]
  have l2 : login store checkPw email2 password2
      = LoginResp.err 401 "Invalid email or password" := by
    unfold login
    rw [if_neg (by simp [he2, hp2]), hfound]
    simp [hbad]
  exact ⟨l1, l2, by rw [l1, l2]⟩

/-- The single user row of the C10 witness store. -/
def cexUser : UserRec :=
  { id := "id1", email := "a@x", password := "hash", name := "A" }

/-- C10 witness: with one stored user and a password check that rejects,
the unknown-email request and the wrong-password request get the identical
401 response. -/
theorem c10_witness :
    login [cexUser] (fun _ _ => false) (some "b@x") (some "pw1")
      = LoginResp.err 401 "Invalid email or password" ∧
    login [cexUser] (fun _ _ => false) (some "a@x") (some "pw2")
      = LoginResp.err 401 "Invalid email or password" ∧
    login [cexUser] (fun _ _ => false) (some "b@x") (some "pw1")
      = login [cexUser] (fun _ _ => false) (some "a@x") (some "pw2") :=
  c10_login_enumeration_safe [cexUser] (fun _ _ => false)
    (some "b@x") (some "pw1") (some "a@x") (some "pw2") cexUser
    rfl rfl rfl rfl (by decide) (by decide) rfl
